import Mathlib

/-!
Verification of the PolyEdge signal pipeline against its specification.

The Python sources under `src/backend/src` are shallowly embedded below:
Python floats are idealised as exact rationals (`ℚ`), `datetime` values as
rational POSIX timestamps (seconds), `Optional[T]` as `Option T`, and
Python's `round(x, 2)` as exact banker's rounding at two decimal places.
Human-readable `reasoning` strings (pure presentation) are not modelled.
-/

namespace PolyEdge

/-- Direction of a trade recommendation, from `src/models/signal.py`. -/
inductive SignalDirection
  | BUY
  | SELL
deriving DecidableEq, Repr

/-- Type of signal, from `src/models/signal.py`. -/
inductive SignalType
  | SENTIMENT_DIVERGENCE
  | VOLUME_SURGE
  | SOCIAL_SPIKE
  | PRICE_MOMENTUM
  | ARBITRAGE
deriving DecidableEq, Repr

/-- Signal lifecycle status, from `src/models/signal.py`. -/
inductive SignalStatus
  | ACTIVE
  | RESOLVED_WIN
  | RESOLVED_LOSS
  | EXPIRED
deriving DecidableEq, Repr

/-- Market volume tier, from `src/models/market.py`. -/
inductive MarketTier
  | THIN
  | LOW
  | MEDIUM
  | HIGH
deriving DecidableEq, Repr

/-- Round a rational to the nearest integer, ties to even: Python's
built-in `round` on exact values (banker's rounding), idealised over `ℚ`. -/
def roundHalfEven (x : ℚ) : ℤ :=
  if x - ⌊x⌋ = 1 / 2 then (if 2 ∣ ⌊x⌋ then ⌊x⌋ else ⌊x⌋ + 1) else round x

/-- Python's `round(x, 2)`: round to two decimal places, ties to even. -/
def round2 (x : ℚ) : ℚ := (roundHalfEven (x * 100) : ℚ) / 100

/-- Clamp a rational into the unit interval. -/
def clamp01 (x : ℚ) : ℚ := max 0 (min 1 x)

/-- Market model, from `src/models/market.py` (fields the pipeline reads).
Timestamps are rational POSIX seconds. -/
structure Market where
  id : String
  question : String
  slug : Option String := none
  active : Bool := true
  closed : Bool := false
  archived : Bool := false
  accepting_orders : Bool := true
  end_date : Option ℚ := none
  volume : ℚ := 0
  volume_24h : ℚ := 0
  liquidity : ℚ := 0
  tier : Option MarketTier := none
  current_price : Option ℚ := none
deriving DecidableEq, Repr

/-- `Market.compute_tier` from `src/models/market.py`: tier from total
volume thresholds. -/
def Market.compute_tier (m : Market) : MarketTier :=
  if m.volume < 10000 then MarketTier.THIN
  else if m.volume < 27000 then MarketTier.LOW
  else if m.volume < 95000 then MarketTier.MEDIUM
  else MarketTier.HIGH

/-- The Python idiom `market.tier or market.compute_tier()` used by the
generator (`generator.py`): stored tier when present, else recomputed.
(`MarketTier` enum values are non-empty strings, hence always truthy.) -/
def Market.effective_tier (m : Market) : MarketTier :=
  m.tier.getD m.compute_tier

/-- Aggregated news sentiment, from `src/models/news.py` (fields read by
the rules). -/
structure NewsSentiment where
  sentiment_score : ℚ
  article_count : ℕ
deriving DecidableEq, Repr

/-- Aggregated social mentions, from `src/models/social.py` (fields read by
the rules). -/
structure SocialMention where
  mention_count_1h : ℕ := 0
  mention_count_24h : ℕ := 0
deriving DecidableEq, Repr

/-- Social sentiment, from `src/models/social.py` (fields read by the
rules). -/
structure SocialSentiment where
  sentiment_score : ℚ
deriving DecidableEq, Repr

/-- A rule-produced candidate, from `src/services/signals/rules.py`
(`reasoning` text not modelled). -/
structure SignalCandidate where
  signal_type : SignalType
  direction : SignalDirection
  confidence : ℚ
  news_sentiment_score : Option ℚ := none
  social_mention_count_24h : Option ℕ := none
  social_sentiment_score : Option ℚ := none
deriving DecidableEq, Repr

/-- Application settings, from `src/config.py`, with their default values.
`min_market_tier` is a string in the source, looked up in
`{THIN: 0, LOW: 1, MEDIUM: 2, HIGH: 3}` with default 1 (= LOW) for unknown
strings; it is modelled directly as a tier. -/
structure Settings where
  sentiment_divergence_threshold : ℚ := 1 / 5
  volume_surge_multiplier : ℚ := 3
  social_spike_multiplier : ℚ := 5
  price_momentum_threshold : ℚ := 1 / 10
  signal_min_confidence : ℚ := 1 / 2
  min_days_to_expiry : ℤ := 7
  min_market_tier : MarketTier := MarketTier.LOW
  min_price_for_signals : ℚ := 1 / 20
  max_price_for_signals : ℚ := 19 / 20
  min_sentiment_strength : ℚ := 3 / 10
  min_article_count : ℕ := 5
deriving DecidableEq, Repr

/-- The durable signal entity, from `src/models/signal.py`. Identity is an
abstract natural number standing for the UUID; `reasoning` text is not
modelled; timestamps are rational POSIX seconds. -/
structure Signal where
  id : ℕ
  created_at : ℚ
  market_id : String
  market_question : String
  market_slug : Option String := none
  market_end_date : Option ℚ := none
  signal_type : SignalType
  direction : SignalDirection
  confidence : ℚ
  entry_price : ℚ
  entry_volume_24h : ℚ := 0
  entry_volume_total : ℚ := 0
  entry_liquidity : ℚ := 0
  market_tier : MarketTier
  news_sentiment_score : Option ℚ := none
  social_mention_count_24h : Option ℕ := none
  social_sentiment_score : Option ℚ := none
  price_1h : Option ℚ := none
  price_24h : Option ℚ := none
  price_7d : Option ℚ := none
  price_at_resolution : Option ℚ := none
  gain_1h_pct : Option ℚ := none
  gain_24h_pct : Option ℚ := none
  gain_7d_pct : Option ℚ := none
  gain_final_pct : Option ℚ := none
  status : SignalStatus := SignalStatus.ACTIVE
  resolved_at : Option ℚ := none
deriving DecidableEq, Repr

/-- `Signal.calculate_gain` from `src/models/signal.py`: percentage gain of
the recommendation at `current_price`. -/
def Signal.calculate_gain (s : Signal) (current_price : ℚ) : ℚ :=
  match s.direction with
  | SignalDirection.BUY => (current_price - s.entry_price) / s.entry_price * 100
  | SignalDirection.SELL => (s.entry_price - current_price) / s.entry_price * 100

/-- `SentimentDivergenceRule.evaluate` from `src/services/signals/rules.py`.
The rule's constructor threshold defaults to
`settings.sentiment_divergence_threshold`; both thresholds are taken from
`Settings` here. -/
def SentimentDivergenceRule.evaluate (s : Settings) (market : Market)
    (news_sentiment : Option NewsSentiment) : Option SignalCandidate :=
  match news_sentiment, market.current_price with
  | none, _ => none
  | _, none => none
  | some news, some price =>
    let sentiment := news.sentiment_score
    if |sentiment| < s.min_sentiment_strength then none
    else if news.article_count < s.min_article_count then none
    else if price < 1 / 20 ∨ price > 19 / 20 then none
    else if sentiment > s.min_sentiment_strength then
      if price > 7 / 10 then none
      else
        let price_expectation := 1 / 2 + sentiment * (3 / 10)
        let divergence := price_expectation - price
        if divergence < s.sentiment_divergence_threshold then none
        else
          let sentiment_factor := min 1 (|sentiment| / (3 / 5))
          let divergence_factor := min 1 (divergence / (3 / 10))
          let article_factor := min 1 ((news.article_count : ℚ) / 15)
          let confidence :=
            sentiment_factor * (2 / 5) + divergence_factor * (2 / 5) + article_factor * (1 / 5)
          some { signal_type := SignalType.SENTIMENT_DIVERGENCE
                 direction := SignalDirection.BUY
                 confidence := round2 (max (3 / 10) (min (9 / 10) confidence))
                 news_sentiment_score := some sentiment }
    else
      if price < 3 / 10 then none
      else
        let price_expectation := 1 / 2 + sentiment * (3 / 10)
        let divergence := price - price_expectation
        if divergence < s.sentiment_divergence_threshold then none
        else
          let sentiment_factor := min 1 (|sentiment| / (3 / 5))
          let divergence_factor := min 1 (divergence / (3 / 10))
          let article_factor := min 1 ((news.article_count : ℚ) / 15)
          let confidence :=
            sentiment_factor * (2 / 5) + divergence_factor * (2 / 5) + article_factor * (1 / 5)
          some { signal_type := SignalType.SENTIMENT_DIVERGENCE
                 direction := SignalDirection.SELL
                 confidence := round2 (max (3 / 10) (min (9 / 10) confidence))
                 news_sentiment_score := some sentiment }

/-- `VolumeSurgeRule.evaluate` from `src/services/signals/rules.py`.
`price_change_threshold` is the constructor argument (default `0.05`);
the volume multiplier comes from `Settings`. -/
def VolumeSurgeRule.evaluate (s : Settings) (price_change_threshold : ℚ)
    (market : Market) (previous_price previous_volume_24h : Option ℚ) :
    Option SignalCandidate :=
  match previous_price, previous_volume_24h with
  | some previous_price, some previous_volume_24h =>
    match market.current_price with
    | none => none
    | some current_price =>
      if previous_volume_24h = 0 then none
      else
        let volume_ratio := market.volume_24h / previous_volume_24h
        if volume_ratio < s.volume_surge_multiplier then none
        else
          let price_change := (current_price - previous_price) / previous_price
          if |price_change| < price_change_threshold then none
          else
            let direction :=
              if price_change > 0 then SignalDirection.BUY else SignalDirection.SELL
            let confidence := min 1 ((volume_ratio - s.volume_surge_multiplier) / 2 + 1 / 2)
            some { signal_type := SignalType.VOLUME_SURGE
                   direction := direction
                   confidence := round2 confidence }
  | _, _ => none

/-- `SocialSpikeRule.evaluate` from `src/services/signals/rules.py`.
`sentiment_threshold` is the constructor argument (default `0.3`); the
mention multiplier comes from `Settings`. The `market` argument is unused
in the source as well. When `mention_count_24h` is zero (falsy in Python),
the source sets `avg_hourly = 1`. -/
def SocialSpikeRule.evaluate (s : Settings) (sentiment_threshold : ℚ)
    (_market : Market) (social_mentions : Option SocialMention)
    (social_sentiment : Option SocialSentiment) : Option SignalCandidate :=
  match social_mentions, social_sentiment with
  | some mentions, some sentiment =>
    let avg_hourly : ℚ :=
      if mentions.mention_count_24h ≠ 0 then (mentions.mention_count_24h : ℚ) / 24 else 1
    let hourly_ratio : ℚ :=
      if avg_hourly > 0 then (mentions.mention_count_1h : ℚ) / avg_hourly else 0
    if hourly_ratio < s.social_spike_multiplier then none
    else if |sentiment.sentiment_score| < sentiment_threshold then none
    else
      let direction :=
        if sentiment.sentiment_score > 0 then SignalDirection.BUY else SignalDirection.SELL
      let spike_confidence :=
        min 1 ((hourly_ratio - s.social_spike_multiplier) / s.social_spike_multiplier + 1 / 2)
      let sentiment_confidence := |sentiment.sentiment_score|
      let confidence := (spike_confidence + sentiment_confidence) / 2
      some { signal_type := SignalType.SOCIAL_SPIKE
             direction := direction
             confidence := round2 confidence
             social_mention_count_24h := some mentions.mention_count_24h
             social_sentiment_score := some sentiment.sentiment_score }
  | _, _ => none

/-- The reason reported by `SignalGenerator.should_skip_market`
(`src/services/signals/generator.py`). Each constructor stands for one of
the source's `return True, "..."` branches; `none` below models the final
`return False, ""`. -/
inductive SkipReason
  | marketClosed
  | marketArchived
  | notAcceptingOrders
  | alreadyExpired
  | tooCloseToExpiry (days_to_expiry : ℤ)
  | tierBelowMinimum (tier : MarketTier)
  | priceBelowMinimum
  | priceAboveMaximum
deriving DecidableEq, Repr

/-- Ordinal of a tier in the source's `tier_order` dict
`{THIN: 0, LOW: 1, MEDIUM: 2, HIGH: 3}`. -/
def tier_order : MarketTier → ℤ
  | MarketTier.THIN => 0
  | MarketTier.LOW => 1
  | MarketTier.MEDIUM => 2
  | MarketTier.HIGH => 3

/-- Python's `(end_date - now).days`: whole days of the time delta,
rounded toward negative infinity (timedelta normalisation). Times are in
seconds. -/
def pyDays (end_date now : ℚ) : ℤ := ⌊(end_date - now) / 86400⌋

/-- The expiration block of `SignalGenerator.should_skip_market`
(`src/services/signals/generator.py`, the `if market.end_date:` body):
already-expired first, then too few whole days to expiry. -/
def expiry_skip (s : Settings) (now : ℚ) (m : Market) : Option SkipReason :=
  match m.end_date with
  | none => none
  | some end_date =>
    if end_date < now then some SkipReason.alreadyExpired
    else if pyDays end_date now < s.min_days_to_expiry then
      some (SkipReason.tooCloseToExpiry (pyDays end_date now))
    else none

/-- `SignalGenerator.should_skip_market` from
`src/services/signals/generator.py`, with the wall clock `now` passed
explicitly. Returns `some reason` for `(True, reason)` and `none` for
`(False, "")`. -/
def should_skip_market (s : Settings) (now : ℚ) (m : Market) : Option SkipReason :=
  if m.closed then some SkipReason.marketClosed
  else if m.archived then some SkipReason.marketArchived
  else if m.accepting_orders = false then some SkipReason.notAcceptingOrders
  else
    match expiry_skip s now m with
    | some r => some r
    | none =>
      if tier_order m.effective_tier < tier_order s.min_market_tier then
        some (SkipReason.tierBelowMinimum m.effective_tier)
      else
        match m.current_price with
        | some p =>
          if p < s.min_price_for_signals then some SkipReason.priceBelowMinimum
          else if p > s.max_price_for_signals then some SkipReason.priceAboveMaximum
          else none
        | none => none

/-- `SignalGenerator.adjust_confidence_for_quality` from
`src/services/signals/generator.py`, with the wall clock `now` passed
explicitly. -/
def adjust_confidence_for_quality (candidate : SignalCandidate) (m : Market)
    (now : ℚ) : ℚ :=
  let confidence := candidate.confidence
  let confidence :=
    match m.effective_tier with
    | MarketTier.LOW => confidence * (17 / 20)
    | MarketTier.MEDIUM => confidence * (19 / 20)
    | _ => confidence
  let confidence :=
    match m.end_date with
    | none => confidence
    | some end_date =>
      let days_to_expiry := pyDays end_date now
      if days_to_expiry < 14 then
        confidence * max (1 / 2) ((days_to_expiry : ℚ) / 14)
      else confidence
  max 0 (min 1 confidence)

/-- The expression `market.current_price or 0.5` from
`SignalGenerator.generate_signal`: Python truthiness makes the fallback
`0.5` apply both when the price is `None` and when it is `0.0`. -/
def entry_price_of (current_price : Option ℚ) : ℚ :=
  match current_price with
  | some p => if p = 0 then 1 / 2 else p
  | none => 1 / 2

/-- The first backfill step of `SignalGenerator.generate_signal`:
`if news_sentiment and signal.news_sentiment_score is None`. -/
def backfill_news (news_sentiment : Option NewsSentiment) (signal : Signal) : Signal :=
  match news_sentiment, signal.news_sentiment_score with
  | some news, none => { signal with news_sentiment_score := some news.sentiment_score }
  | _, _ => signal

/-- The second backfill step of `SignalGenerator.generate_signal`:
`if social_mentions and signal.social_mention_count_24h is None`. -/
def backfill_mentions (social_mentions : Option SocialMention) (signal : Signal) :
    Signal :=
  match social_mentions, signal.social_mention_count_24h with
  | some mentions, none =>
    { signal with social_mention_count_24h := some mentions.mention_count_24h }
  | _, _ => signal

/-- `SignalGenerator.generate_signal` from
`src/services/signals/generator.py`. The freshly drawn UUID and
`datetime.utcnow()` defaults become the `fresh_id` and `now` parameters. -/
def generate_signal (fresh_id : ℕ) (now : ℚ) (market : Market)
    (candidate : SignalCandidate) (news_sentiment : Option NewsSentiment)
    (social_mentions : Option SocialMention) : Signal :=
  backfill_mentions social_mentions (backfill_news news_sentiment
    { id := fresh_id
      created_at := now
      market_id := market.id
      market_question := market.question
      market_slug := market.slug
      market_end_date := market.end_date
      signal_type := candidate.signal_type
      direction := candidate.direction
      confidence := candidate.confidence
      entry_price := entry_price_of market.current_price
      entry_volume_24h := market.volume_24h
      entry_volume_total := market.volume
      entry_liquidity := market.liquidity
      market_tier := market.effective_tier
      news_sentiment_score := candidate.news_sentiment_score
      social_mention_count_24h := candidate.social_mention_count_24h
      social_sentiment_score := candidate.social_sentiment_score })

/-- `is_market_current` from `src/services/data_sources/polymarket.py`,
with the wall clock `now` passed explicitly. -/
def is_market_current (m : Market) (now : ℚ) : Bool :=
  if m.closed then false
  else if m.archived then false
  else if m.accepting_orders = false then false
  else
    match m.end_date with
    | some end_date => if end_date < now then false else true
    | none => true

/-- `Signal.update_tracking` from `src/models/signal.py`: the model
helper's `if`/`elif` chain fills at most one horizon per call. -/
def Signal.update_tracking (s : Signal) (current_price hours_since_signal : ℚ) :
    Signal :=
  let gain := s.calculate_gain current_price
  if 1 ≤ hours_since_signal ∧ s.price_1h = none then
    { s with price_1h := some current_price, gain_1h_pct := some gain }
  else if 24 ≤ hours_since_signal ∧ s.price_24h = none then
    { s with price_24h := some current_price, gain_24h_pct := some gain }
  else if 168 ≤ hours_since_signal ∧ s.price_7d = none then
    { s with price_7d := some current_price, gain_7d_pct := some gain }
  else s

/-- The horizon-filling portion of `SignalTracker.update_signal_tracking`
(`src/services/tracking/tracker.py`, the three independent `if` blocks):
each horizon is filled when its time has been reached and its field is
still unset. -/
def tracker_fill_horizons (s : Signal) (current_price hours_since_signal : ℚ) :
    Signal :=
  let s :=
    if 1 ≤ hours_since_signal ∧ s.price_1h = none then
      { s with price_1h := some current_price
               gain_1h_pct := some (s.calculate_gain current_price) }
    else s
  let s :=
    if 24 ≤ hours_since_signal ∧ s.price_24h = none then
      { s with price_24h := some current_price
               gain_24h_pct := some (s.calculate_gain current_price) }
    else s
  if 168 ≤ hours_since_signal ∧ s.price_7d = none then
    { s with price_7d := some current_price
             gain_7d_pct := some (s.calculate_gain current_price) }
  else s

/-- `SignalTracker._resolve_signal` from `src/services/tracking/tracker.py`. -/
def resolve_signal (s : Signal) (m : Market) (now : ℚ) : Signal :=
  match m.current_price with
  | none => s
  | some final_price =>
    let gain := s.calculate_gain final_price
    { s with price_at_resolution := some final_price
             gain_final_pct := some gain
             status :=
               if gain > 0 then SignalStatus.RESOLVED_WIN else SignalStatus.RESOLVED_LOSS
             resolved_at := some now }

/-- `SignalTracker.update_signal_tracking` from
`src/services/tracking/tracker.py`: one tracking tick for a signal, given
the market fetched for it (`none` when the source returned nothing) and
the wall clock `now`. Database writes are side effects outside the model. -/
def update_signal_tracking (s : Signal) (market : Option Market) (now : ℚ) :
    Signal :=
  match market with
  | none => s
  | some m =>
    match m.current_price with
    | none => s
    | some current_price =>
      if is_market_current m now = false then
        if m.closed ∧ s.status = SignalStatus.ACTIVE then resolve_signal s m now else s
      else
        let hours_since_signal := (now - s.created_at) / 3600
        let s1 := tracker_fill_horizons s current_price hours_since_signal
        if m.closed ∧ s1.status = SignalStatus.ACTIVE then resolve_signal s1 m now else s1

/-- A sequence of tracker ticks: fold `update_signal_tracking` over a list
of (fetched market, wall-clock time) observations. -/
def run_ticks (ticks : List (Market × ℚ)) (s : Signal) : Signal :=
  ticks.foldl (fun acc t => update_signal_tracking acc (some t.1) t.2) s

/-- Scan result aggregate, from `src/services/signals/scanner.py` (the
degradation map and scan time are not claim-relevant and not modelled). -/
structure ScanResult where
  signals_generated : ℕ := 0
  markets_scanned : ℕ := 0
  signals : List Signal := []
  errors : List String := []
deriving DecidableEq, Repr

/-- One iteration of the market loop in `SignalScanner.run_scan`
(`src/services/signals/scanner.py`): a successful evaluation appends its
signals and counts the market as scanned; a raised exception appends
exactly one error string. Evaluating a market is abstracted as an
`Except`-valued function (`.error e` models `scan_market` raising, with
`e` the formatted error string). -/
def scan_step (evaluate : Market → Except String (List Signal))
    (r : ScanResult) (m : Market) : ScanResult :=
  match evaluate m with
  | Except.ok sigs =>
    { r with signals := r.signals ++ sigs, markets_scanned := r.markets_scanned + 1 }
  | Except.error e => { r with errors := r.errors ++ [e] }

/-- `SignalScanner.run_scan` from `src/services/signals/scanner.py`,
restricted to its scanning loop: the market universe is passed in already
resolved, and persistence/degradation bookkeeping (side effects) is not
modelled. -/
def run_scan (evaluate : Market → Except String (List Signal))
    (markets : List Market) : ScanResult :=
  if markets = [] then
    { errors := ["No markets to scan. Check watchlist configuration."] }
  else
    let r := markets.foldl (scan_step evaluate) {}
    { r with signals_generated := r.signals.length }

/-- A minimal signal used to evaluate claims on concrete inputs
(entry price 0.40). -/
def sampleSignal (d : SignalDirection) : Signal :=
  { id := 0
    created_at := 0
    market_id := "mkt-1"
    market_question := "Will it happen?"
    signal_type := SignalType.SENTIMENT_DIVERGENCE
    direction := d
    confidence := 1 / 2
    entry_price := 2 / 5
    market_tier := MarketTier.MEDIUM }

/-- Statement vocabulary: the market passes the lifecycle flags of the
quality filter (not closed, not archived, accepting orders). -/
def lifecycle_ok (m : Market) : Prop :=
  m.closed = false ∧ m.archived = false ∧ m.accepting_orders = true

/-- Statement vocabulary: the market's end date (when present) is not in
the past and leaves at least `min_days_to_expiry` whole days. -/
def expiry_ok (s : Settings) (now : ℚ) (m : Market) : Prop :=
  ∀ e, m.end_date = some e → ¬ e < now ∧ ¬ pyDays e now < s.min_days_to_expiry

/-- Statement vocabulary: the market's effective tier is not below the
configured minimum tier (ordinal comparison THIN < LOW < MEDIUM < HIGH). -/
def tier_ok (s : Settings) (m : Market) : Prop :=
  ¬ tier_order m.effective_tier < tier_order s.min_market_tier

/-- Statement vocabulary: the market's current price (when present) lies
inside the configured price band. -/
def price_ok (s : Settings) (m : Market) : Prop :=
  ∀ p, m.current_price = some p →
    ¬ p < s.min_price_for_signals ∧ ¬ s.max_price_for_signals < p

/-- The average hourly mention rate as `SocialSpikeRule` computes it:
`mention_count_24h / 24`, except that a zero (falsy) 24h count yields 1. -/
def avg_hourly_rate (mentions : SocialMention) : ℚ :=
  if mentions.mention_count_24h ≠ 0 then (mentions.mention_count_24h : ℚ) / 24 else 1

/-- The 1h-to-average mention ratio as `SocialSpikeRule` computes it. -/
def mention_hourly_ratio (mentions : SocialMention) : ℚ :=
  (mentions.mention_count_1h : ℚ) / avg_hourly_rate mentions

/-- The expiry-decay multiplier applied by
`SignalGenerator.adjust_confidence_for_quality`: `max(0.5, days/14)` when
fewer than 14 whole days remain, and 1 otherwise. -/
def time_decay_factor (m : Market) (now : ℚ) : ℚ :=
  match m.end_date with
  | none => 1
  | some end_date =>
    if pyDays end_date now < 14 then max (1 / 2) ((pyDays end_date now : ℚ) / 14) else 1

/-- The tier multiplier applied by
`SignalGenerator.adjust_confidence_for_quality`. -/
def tier_multiplier (t : MarketTier) : ℚ :=
  match t with
  | MarketTier.LOW => 17 / 20
  | MarketTier.MEDIUM => 19 / 20
  | _ => 1

/-- Concrete open market with price 0.60, used to evaluate claims about
tracker ticks on a current market. -/
def currentMarket : Market :=
  { id := "m-cur", question := "q", volume := 50000, current_price := some (3 / 5) }

/-- Concrete open MEDIUM-tier market with no current price: it passes the
quality filter (fail-open on missing price). -/
def pricelessMarket : Market :=
  { id := "m-noprice", question := "q", volume := 50000, volume_24h := 1000
    liquidity := 500 }

/-- Concrete candidate used to exercise `generate_signal`. -/
def sampleCandidate : SignalCandidate :=
  { signal_type := SignalType.SOCIAL_SPIKE
    direction := SignalDirection.BUY
    confidence := 3 / 5 }

/-- Concrete market at price 0.80 used for the sentiment-boundary input. -/
def boundaryMarket : Market :=
  { id := "m-bdry", question := "q", current_price := some (4 / 5) }

/-- Concrete market whose 24h volume is 3.001 times the previous volume of
1000, at price 0.60. -/
def surgeMarket : Market :=
  { id := "m-surge", question := "q", volume_24h := 3001, current_price := some (3 / 5) }

/-- Concrete market whose 24h volume is 5 times the previous volume of
100, at price 0.60. -/
def fivexMarket : Market :=
  { id := "m-5x", question := "q", volume_24h := 500, current_price := some (3 / 5) }

/-- Three concrete markets for the scan-isolation scenario. -/
def scanMarkets : List Market :=
  [{ id := "m1", question := "q1" }, { id := "m2", question := "q2" },
   { id := "m3", question := "q3" }]

/-- Concrete per-market evaluation for the scan-isolation scenario: the
second market raises, the others each produce one signal. -/
def scanEval : Market → Except String (List Signal) := fun m =>
  if m.id = "m2" then Except.error "Error scanning market m2: boom"
  else Except.ok [sampleSignal SignalDirection.BUY]

/-- C1: the gain of every signal at every current price is computed by the
single function `Signal.calculate_gain`: for BUY signals
`gain = (current_price - entry_price) / entry_price * 100`, for SELL
signals `gain = (entry_price - current_price) / entry_price * 100`; in
particular a BUY signal with entry 0.40 at price 0.60 gains +50.0 and a
SELL signal with entry 0.40 at price 0.60 gains -50.0. -/
theorem C1_gain_formula :
    (∀ (s : Signal) (current_price : ℚ),
      (s.direction = SignalDirection.BUY →
        s.calculate_gain current_price =
          (current_price - s.entry_price) / s.entry_price * 100) ∧
      (s.direction = SignalDirection.SELL →
        s.calculate_gain current_price =
          (s.entry_price - current_price) / s.entry_price * 100)) ∧
    (sampleSignal SignalDirection.BUY).calculate_gain (3 / 5) = 50 ∧
    (sampleSignal SignalDirection.SELL).calculate_gain (3 / 5) = -50 := by
  refine ⟨fun s current_price => ⟨fun h => ?_, fun h => ?_⟩, ?_, ?_⟩
  · simp [Signal.calculate_gain, h]
  · simp [Signal.calculate_gain, h]
  · norm_num [sampleSignal, Signal.calculate_gain]
  · norm_num [sampleSignal, Signal.calculate_gain]

/-- C1 witness: the general formula evaluated on the concrete BUY signal
with entry 0.40 at price 0.60. -/
theorem C1_gain_formula_witness :
    (sampleSignal SignalDirection.BUY).calculate_gain (3 / 5) =
      ((3 : ℚ) / 5 - (sampleSignal SignalDirection.BUY).entry_price) /
        (sampleSignal SignalDirection.BUY).entry_price * 100 :=
  (C1_gain_formula.1 (sampleSignal SignalDirection.BUY) (3 / 5)).1 rfl

/-- C7 counterexample: a MEDIUM-tier market with no current price is
accepted by the quality filter, yet the materialized signal's
`entry_price` is the fallback 0.5, not the market's (absent) current
price; likewise a market whose current price is exactly 0.0 yields
`entry_price = 0.5` (Python's `market.current_price or 0.5` treats 0.0 as
falsy). -/
theorem C7_counterexample :
    should_skip_market {} 0 pricelessMarket = none ∧
    pricelessMarket.current_price = none ∧
    (generate_signal 7 0 pricelessMarket sampleCandidate none none).entry_price = 1 / 2 ∧
    (generate_signal 7 0 { pricelessMarket with current_price := some 0 }
        sampleCandidate none none).entry_price = 1 / 2 := by
  refine ⟨?_, rfl, rfl, ?_⟩
  · norm_num [should_skip_market, expiry_skip, pricelessMarket, Market.effective_tier,
      Market.compute_tier, tier_order, pyDays]
  · simp [generate_signal, pricelessMarket, sampleCandidate, backfill_news,
      backfill_mentions, entry_price_of]

/-- C7 (amended): every signal materialized by `generate_signal` copies
the market's current price as `entry_price` whenever that price is present
and non-zero (falling back to 0.5 when it is absent or 0.0), copies the
market's 24h volume, total volume and liquidity as the entry snapshot,
carries ACTIVE status, and takes the freshly assigned identity. -/
theorem C7_entry_snapshot (fresh_id : ℕ) (now : ℚ) (market : Market)
    (candidate : SignalCandidate) (news : Option NewsSentiment)
    (mentions : Option SocialMention) :
    (∀ p, market.current_price = some p → p ≠ 0 →
      (generate_signal fresh_id now market candidate news mentions).entry_price = p) ∧
    (market.current_price = none ∨ market.current_price = some 0 →
      (generate_signal fresh_id now market candidate news mentions).entry_price = 1 / 2) ∧
    (generate_signal fresh_id now market candidate news mentions).entry_volume_24h =
      market.volume_24h ∧
    (generate_signal fresh_id now market candidate news mentions).entry_volume_total =
      market.volume ∧
    (generate_signal fresh_id now market candidate news mentions).entry_liquidity =
      market.liquidity ∧
    (generate_signal fresh_id now market candidate news mentions).status =
      SignalStatus.ACTIVE ∧
    (generate_signal fresh_id now market candidate news mentions).id = fresh_id := by
  unfold generate_signal backfill_news backfill_mentions
  rcases news with _ | n <;> rcases mentions with _ | mm <;>
    rcases hns : candidate.news_sentiment_score with _ | x <;>
    rcases hsm : candidate.social_mention_count_24h with _ | y <;>
    rcases hcp : market.current_price with _ | p <;>
    simp [hns, hsm, hcp, entry_price_of] <;>
    exact ⟨fun h1 h2 => absurd h2 h1, fun h1 h2 => absurd h1 h2⟩

/-- C7 witness: the amended snapshot property evaluated on a concrete
market with current price 0.60. -/
theorem C7_entry_snapshot_witness :
    (generate_signal 7 0 currentMarket sampleCandidate none none).entry_price = 3 / 5 :=
  (C7_entry_snapshot 7 0 currentMarket sampleCandidate none none).1 (3 / 5) rfl
    (by norm_num)

/-- Helper: a market whose expiration checks pass makes the expiration
block report nothing. -/
theorem expiry_ok_skip_none (s : Settings) (now : ℚ) (m : Market)
    (h : expiry_ok s now m) : expiry_skip s now m = none := by
  rcases hed : m.end_date with _ | e
  · simp [expiry_skip, hed]
  · have he := h e hed
    simp [expiry_skip, hed, he.1, he.2]

/-- Helper: on a market passing the lifecycle flags and the expiration
block, `should_skip_market` reduces to its tier/price tail. -/
theorem ssm_open_eval (s : Settings) (now : ℚ) (m : Market)
    (hcl : m.closed = false) (har : m.archived = false)
    (hao : m.accepting_orders = true) (hskip : expiry_skip s now m = none) :
    should_skip_market s now m =
      (if tier_order m.effective_tier < tier_order s.min_market_tier then
        some (SkipReason.tierBelowMinimum m.effective_tier)
      else
        match m.current_price with
        | some p =>
          if p < s.min_price_for_signals then some SkipReason.priceBelowMinimum
          else if p > s.max_price_for_signals then some SkipReason.priceAboveMaximum
          else none
        | none => none) := by
  simp [should_skip_market, hcl, har, hao, hskip]

/-- Helper: the tier/price tail of `should_skip_market`, entered when the
lifecycle flags pass and the expiration block reports nothing. -/
theorem ssm_tail (s : Settings) (now : ℚ) (m : Market)
    (hcl : m.closed = false) (har : m.archived = false)
    (hao : m.accepting_orders = true) (hskip : expiry_skip s now m = none) :
    (¬ tier_ok s m ∧
      should_skip_market s now m = some (SkipReason.tierBelowMinimum m.effective_tier)) ∨
    (tier_ok s m ∧ (∃ p, m.current_price = some p ∧ p < s.min_price_for_signals) ∧
      should_skip_market s now m = some SkipReason.priceBelowMinimum) ∨
    (tier_ok s m ∧
      (∃ p, m.current_price = some p ∧ ¬ p < s.min_price_for_signals ∧
        s.max_price_for_signals < p) ∧
      should_skip_market s now m = some SkipReason.priceAboveMaximum) ∨
    (tier_ok s m ∧ price_ok s m ∧ should_skip_market s now m = none) := by
  by_cases htier : tier_order m.effective_tier < tier_order s.min_market_tier
  · exact Or.inl ⟨fun hc => hc htier,
      by simp [should_skip_market, hcl, har, hao, hskip, htier]⟩
  · rcases hcp : m.current_price with _ | p
    · refine Or.inr (Or.inr (Or.inr ⟨htier, fun p hp => by simp [hcp] at hp, ?_⟩))
      simp [should_skip_market, hcl, har, hao, hskip, htier, hcp]
    · by_cases hlo : p < s.min_price_for_signals
      · exact Or.inr (Or.inl ⟨htier, ⟨p, rfl, hlo⟩,
          by simp [should_skip_market, hcl, har, hao, hskip, htier, hcp, hlo]⟩)
      · by_cases hhi : s.max_price_for_signals < p
        · exact Or.inr (Or.inr (Or.inl ⟨htier, ⟨p, rfl, hlo, hhi⟩,
            by simp [should_skip_market, hcl, har, hao, hskip, htier, hcp, hlo, hhi]⟩))
        · refine Or.inr (Or.inr (Or.inr ⟨htier, fun p' hp' => ?_, ?_⟩))
          · rw [hcp] at hp'
            cases hp'
            exact ⟨hlo, hhi⟩
          · simp [should_skip_market, hcl, har, hao, hskip, htier, hcp, hlo, hhi]

/-- Helper: exhaustive, mutually consistent enumeration of the scenarios
of `should_skip_market`, pairing each reported reason with the conditions
that produce it. -/
theorem ssm_cases (s : Settings) (now : ℚ) (m : Market) :
    (m.closed = true ∧ should_skip_market s now m = some SkipReason.marketClosed) ∨
    (m.closed = false ∧ m.archived = true ∧
      should_skip_market s now m = some SkipReason.marketArchived) ∨
    (m.closed = false ∧ m.archived = false ∧ m.accepting_orders = false ∧
      should_skip_market s now m = some SkipReason.notAcceptingOrders) ∨
    (lifecycle_ok m ∧ (∃ e, m.end_date = some e ∧ e < now) ∧
      should_skip_market s now m = some SkipReason.alreadyExpired) ∨
    (lifecycle_ok m ∧
      (∃ e, m.end_date = some e ∧ ¬ e < now ∧ pyDays e now < s.min_days_to_expiry ∧
        should_skip_market s now m = some (SkipReason.tooCloseToExpiry (pyDays e now)))) ∨
    (lifecycle_ok m ∧ expiry_ok s now m ∧ ¬ tier_ok s m ∧
      should_skip_market s now m = some (SkipReason.tierBelowMinimum m.effective_tier)) ∨
    (lifecycle_ok m ∧ expiry_ok s now m ∧ tier_ok s m ∧
      (∃ p, m.current_price = some p ∧ p < s.min_price_for_signals) ∧
      should_skip_market s now m = some SkipReason.priceBelowMinimum) ∨
    (lifecycle_ok m ∧ expiry_ok s now m ∧ tier_ok s m ∧
      (∃ p, m.current_price = some p ∧ ¬ p < s.min_price_for_signals ∧
        s.max_price_for_signals < p) ∧
      should_skip_market s now m = some SkipReason.priceAboveMaximum) ∨
    (lifecycle_ok m ∧ expiry_ok s now m ∧ tier_ok s m ∧ price_ok s m ∧
      should_skip_market s now m = none) := by
  cases hcl : m.closed
  case true => exact Or.inl ⟨rfl, by simp [should_skip_market, hcl]⟩
  case false =>
  cases har : m.archived
  case true =>
    exact Or.inr (Or.inl ⟨rfl, rfl, by simp [should_skip_market, hcl, har]⟩)
  case false =>
  cases hao : m.accepting_orders
  case false =>
    exact Or.inr (Or.inr (Or.inl ⟨rfl, rfl, rfl,
      by simp [should_skip_market, hcl, har, hao]⟩))
  case true =>
  have hl : lifecycle_ok m := ⟨hcl, har, hao⟩
  have tail :
      expiry_ok s now m → expiry_skip s now m = none →
      (lifecycle_ok m ∧ expiry_ok s now m ∧ ¬ tier_ok s m ∧
        should_skip_market s now m = some (SkipReason.tierBelowMinimum m.effective_tier)) ∨
      (lifecycle_ok m ∧ expiry_ok s now m ∧ tier_ok s m ∧
        (∃ p, m.current_price = some p ∧ p < s.min_price_for_signals) ∧
        should_skip_market s now m = some SkipReason.priceBelowMinimum) ∨
      (lifecycle_ok m ∧ expiry_ok s now m ∧ tier_ok s m ∧
        (∃ p, m.current_price = some p ∧ ¬ p < s.min_price_for_signals ∧
          s.max_price_for_signals < p) ∧
        should_skip_market s now m = some SkipReason.priceAboveMaximum) ∨
      (lifecycle_ok m ∧ expiry_ok s now m ∧ tier_ok s m ∧ price_ok s m ∧
        should_skip_market s now m = none) := by
    intro hexok hskip
    rcases ssm_tail s now m hcl har hao hskip with h | h | h | h
    · exact Or.inl ⟨hl, hexok, h.1, h.2⟩
    · exact Or.inr (Or.inl ⟨hl, hexok, h.1, h.2.1, h.2.2⟩)
    · exact Or.inr (Or.inr (Or.inl ⟨hl, hexok, h.1, h.2.1, h.2.2⟩))
    · exact Or.inr (Or.inr (Or.inr ⟨hl, hexok, h.1, h.2.1, h.2.2⟩))
  rcases hed : m.end_date with _ | e
  · have hexok : expiry_ok s now m := fun e he => by simp [hed] at he
    have hskip : expiry_skip s now m = none := by simp [expiry_skip, hed]
    rcases tail hexok hskip with h | h | h | h
    · exact Or.inr (Or.inr (Or.inr (Or.inr (Or.inr (Or.inl h)))))
    · exact Or.inr (Or.inr (Or.inr (Or.inr (Or.inr (Or.inr (Or.inl h))))))
    · exact Or.inr (Or.inr (Or.inr (Or.inr (Or.inr (Or.inr (Or.inr (Or.inl h)))))))
    · exact Or.inr (Or.inr (Or.inr (Or.inr (Or.inr (Or.inr (Or.inr (Or.inr h)))))))
  · by_cases hex : e < now
    · refine Or.inr (Or.inr (Or.inr (Or.inl ⟨hl, ⟨e, rfl, hex⟩, ?_⟩)))
      simp [should_skip_market, expiry_skip, hcl, har, hao, hed, hex]
    · by_cases hdd : pyDays e now < s.min_days_to_expiry
      · refine Or.inr (Or.inr (Or.inr (Or.inr (Or.inl ⟨hl, e, rfl, hex, hdd, ?_⟩))))
        simp [should_skip_market, expiry_skip, hcl, har, hao, hed, hex, hdd]
      · have hexok : expiry_ok s now m := fun e' he' => by
          rw [hed] at he'
          cases he'
          exact ⟨hex, hdd⟩
        have hskip : expiry_skip s now m = none := by
          simp [expiry_skip, hed, hex, hdd]
        rcases tail hexok hskip with h | h | h | h
        · exact Or.inr (Or.inr (Or.inr (Or.inr (Or.inr (Or.inl h)))))
        · exact Or.inr (Or.inr (Or.inr (Or.inr (Or.inr (Or.inr (Or.inl h))))))
        · exact Or.inr (Or.inr (Or.inr (Or.inr (Or.inr (Or.inr (Or.inr (Or.inl h)))))))
        · exact Or.inr (Or.inr (Or.inr (Or.inr (Or.inr (Or.inr (Or.inr (Or.inr h)))))))

/-- C4: `should_skip_market` evaluates its skip conditions in the fixed
priority order closed, archived, not accepting orders, already expired,
too few days to expiry, tier below minimum (ordinal THIN < LOW < MEDIUM <
HIGH), price outside the configured band, reporting the first matching
condition (so a market that is both closed and below the minimum tier
reports the closed reason); it returns `none` — the source's
`(False, "")` — exactly when no condition applies, and a market with no
current price never triggers the price-band check. -/
theorem C4_skip_priority (s : Settings) (now : ℚ) (m : Market) :
    (m.closed = true → should_skip_market s now m = some SkipReason.marketClosed) ∧
    (should_skip_market s now m = none ↔
      lifecycle_ok m ∧ expiry_ok s now m ∧ tier_ok s m ∧ price_ok s m) ∧
    (should_skip_market s now m = some SkipReason.marketArchived ↔
      m.closed = false ∧ m.archived = true) ∧
    (should_skip_market s now m = some SkipReason.notAcceptingOrders ↔
      m.closed = false ∧ m.archived = false ∧ m.accepting_orders = false) ∧
    (should_skip_market s now m = some SkipReason.alreadyExpired ↔
      lifecycle_ok m ∧ ∃ e, m.end_date = some e ∧ e < now) ∧
    ((∃ d, should_skip_market s now m = some (SkipReason.tooCloseToExpiry d)) ↔
      lifecycle_ok m ∧
        ∃ e, m.end_date = some e ∧ ¬ e < now ∧ pyDays e now < s.min_days_to_expiry) ∧
    ((∃ t, should_skip_market s now m = some (SkipReason.tierBelowMinimum t)) ↔
      lifecycle_ok m ∧ expiry_ok s now m ∧ ¬ tier_ok s m) ∧
    (should_skip_market s now m = some SkipReason.priceBelowMinimum ↔
      lifecycle_ok m ∧ expiry_ok s now m ∧ tier_ok s m ∧
        ∃ p, m.current_price = some p ∧ p < s.min_price_for_signals) ∧
    (should_skip_market s now m = some SkipReason.priceAboveMaximum ↔
      lifecycle_ok m ∧ expiry_ok s now m ∧ tier_ok s m ∧
        ∃ p, m.current_price = some p ∧ ¬ p < s.min_price_for_signals ∧
          s.max_price_for_signals < p) ∧
    (m.current_price = none →
      should_skip_market s now m ≠ some SkipReason.priceBelowMinimum ∧
      should_skip_market s now m ≠ some SkipReason.priceAboveMaximum) := by
  refine ⟨?_, ?_, ?_, ?_, ?_, ?_, ?_, ?_, ?_, ?_⟩
  · intro h
    simp [should_skip_market, h]
  · constructor
    · intro hx
      rcases ssm_cases s now m with h | h | h | h | ⟨hl, e, hed, hex, hdd, hv⟩ |
        h | h | h | h <;> simp_all
    · rintro ⟨hl, hexok, htok, hpok⟩
      have hskip := expiry_ok_skip_none s now m hexok
      have htier : ¬ tier_order m.effective_tier < tier_order s.min_market_tier := htok
      rw [ssm_open_eval s now m hl.1 hl.2.1 hl.2.2 hskip]
      rcases hcp : m.current_price with _ | p
      · simp [htier]
      · have hp := hpok p hcp
        simp [htier, hp.1, hp.2]
  · constructor
    · intro hx
      rcases ssm_cases s now m with h | h | h | h | ⟨hl, e, hed, hex, hdd, hv⟩ |
        h | h | h | h <;> simp_all
    · rintro ⟨hcl, har⟩
      simp [should_skip_market, hcl, har]
  · constructor
    · intro hx
      rcases ssm_cases s now m with h | h | h | h | ⟨hl, e, hed, hex, hdd, hv⟩ |
        h | h | h | h <;> simp_all
    · rintro ⟨hcl, har, hao⟩
      simp [should_skip_market, hcl, har, hao]
  · constructor
    · intro hx
      rcases ssm_cases s now m with h | h | h | h | ⟨hl, e, hed, hex, hdd, hv⟩ |
        h | h | h | h <;> simp_all
    · rintro ⟨hl, e, hed, hex⟩
      simp [should_skip_market, expiry_skip, hl.1, hl.2.1, hl.2.2, hed, hex]
  · constructor
    · rintro ⟨d, hd⟩
      rcases ssm_cases s now m with h | h | h | h | ⟨hl, e, hed, hex, hdd, hv⟩ |
        h | h | h | h <;>
        first
          | exact ⟨hl, e, hed, hex, hdd⟩
          | simp_all
    · rintro ⟨hl, e, hed, hex, hdd⟩
      refine ⟨pyDays e now, ?_⟩
      simp [should_skip_market, expiry_skip, hl.1, hl.2.1, hl.2.2, hed, hex, hdd]
  · constructor
    · rintro ⟨t, ht⟩
      rcases ssm_cases s now m with h | h | h | h | ⟨hl, e, hed, hex, hdd, hv⟩ |
        h | h | h | h <;> simp_all
    · rintro ⟨hl, hexok, hnt⟩
      have hskip := expiry_ok_skip_none s now m hexok
      have htier : tier_order m.effective_tier < tier_order s.min_market_tier :=
        not_not.mp hnt
      refine ⟨m.effective_tier, ?_⟩
      rw [ssm_open_eval s now m hl.1 hl.2.1 hl.2.2 hskip]
      simp [htier]
  · constructor
    · intro hx
      rcases ssm_cases s now m with h | h | h | h | ⟨hl, e, hed, hex, hdd, hv⟩ |
        h | h | h | h <;> simp_all
    · rintro ⟨hl, hexok, htok, p, hcp, hlo⟩
      have hskip := expiry_ok_skip_none s now m hexok
      have htier : ¬ tier_order m.effective_tier < tier_order s.min_market_tier := htok
      rw [ssm_open_eval s now m hl.1 hl.2.1 hl.2.2 hskip]
      simp [htier, hcp, hlo]
  · constructor
    · intro hx
      rcases ssm_cases s now m with h | h | h | h | ⟨hl, e, hed, hex, hdd, hv⟩ |
        h | h | h | h <;> simp_all
    · rintro ⟨hl, hexok, htok, p, hcp, hplo, hphi⟩
      have hskip := expiry_ok_skip_none s now m hexok
      have htier : ¬ tier_order m.effective_tier < tier_order s.min_market_tier := htok
      rw [ssm_open_eval s now m hl.1 hl.2.1 hl.2.2 hskip]
      simp [htier, hcp, hplo, hphi]
  · intro hnone
    constructor
    · intro hx
      rcases ssm_cases s now m with h | h | h | h | ⟨hl, e, hed, hex, hdd, hv⟩ |
        h | h | h | h <;> simp_all
    · intro hx
      rcases ssm_cases s now m with h | h | h | h | ⟨hl, e, hed, hex, hdd, hv⟩ |
        h | h | h | h <;> simp_all

/-- C4 witness: a market that is both closed and below the minimum tier
(volume 5, tier THIN) reports the closed reason. -/
theorem C4_skip_priority_witness :
    should_skip_market {} 0
      { id := "m-w", question := "q", closed := true, volume := 5 } =
      some SkipReason.marketClosed :=
  (C4_skip_priority {} 0
    { id := "m-w", question := "q", closed := true, volume := 5 }).1 rfl

/-- Helper: clamping a nonnegative rational into the unit interval only
caps it at 1. -/
theorem clamp01_of_nonneg (x : ℚ) (h : 0 ≤ x) : clamp01 x = min 1 x := by
  unfold clamp01
  exact max_eq_right (le_min (by norm_num) h)

/-- C5 counterexample: with previous volume 1000 and 24h volume 3001
(ratio 3.001) and price 0.50 → 0.60, the rule fires with confidence 0.50,
whereas `clamp01((volume_ratio - multiplier)/2 + 0.5) = 0.5005`: the code
rounds the confidence to two decimal places, so the claimed equality
fails. -/
theorem C5_counterexample :
    (VolumeSurgeRule.evaluate {} (1 / 20) surgeMarket (some (1 / 2))
        (some 1000)).map SignalCandidate.confidence = some (1 / 2) ∧
    clamp01 ((surgeMarket.volume_24h / 1000 -
        ({} : Settings).volume_surge_multiplier) / 2 + 1 / 2) ≠ 1 / 2 := by
  constructor
  · norm_num [VolumeSurgeRule.evaluate, surgeMarket, round2, roundHalfEven, clamp01,
      min_def, max_def, round_eq, abs_of_nonneg]
  · norm_num [surgeMarket, clamp01, min_def, max_def]

/-- C5 (amended): `VolumeSurgeRule.evaluate` produces a candidate exactly
when a previous price, a non-zero previous 24h volume and a current price
are supplied, the volume ratio
`volume_24h / previous_volume_24h` is at least the multiplier, and
`|price_change| ≥ price_change_threshold` with
`price_change = (price - previous_price)/previous_price`; the direction
follows the sign of `price_change`, and the confidence equals
`clamp01((volume_ratio - multiplier)/2 + 0.5)` rounded to two decimal
places. -/
theorem C5_volume_surge (st : Settings) (thr : ℚ) (market : Market)
    (previous_price previous_volume_24h : Option ℚ) :
    ((VolumeSurgeRule.evaluate st thr market previous_price
        previous_volume_24h).isSome = true ↔
      ∃ p pp pv, market.current_price = some p ∧ previous_price = some pp ∧
        previous_volume_24h = some pv ∧ ¬ pv = 0 ∧
        ¬ market.volume_24h / pv < st.volume_surge_multiplier ∧
        ¬ |(p - pp) / pp| < thr) ∧
    (∀ c p pp pv,
      VolumeSurgeRule.evaluate st thr market previous_price
        previous_volume_24h = some c →
      market.current_price = some p → previous_price = some pp →
      previous_volume_24h = some pv →
      c.signal_type = SignalType.VOLUME_SURGE ∧
      (c.direction = SignalDirection.BUY ↔ 0 < (p - pp) / pp) ∧
      c.confidence = round2 (clamp01 ((market.volume_24h / pv -
        st.volume_surge_multiplier) / 2 + 1 / 2))) := by
  constructor
  · rcases previous_price with _ | pp
    · simp [VolumeSurgeRule.evaluate]
    rcases previous_volume_24h with _ | pv
    · simp [VolumeSurgeRule.evaluate]
    rcases hcp : market.current_price with _ | p
    · simp [VolumeSurgeRule.evaluate, hcp]
    by_cases hz : pv = 0
    · simp [VolumeSurgeRule.evaluate, hcp, hz]
    by_cases hr : market.volume_24h / pv < st.volume_surge_multiplier
    · simp [VolumeSurgeRule.evaluate, hcp, hz, hr]
    by_cases hab : |(p - pp) / pp| < thr
    · simp [VolumeSurgeRule.evaluate, hcp, hz, hr, hab]
    · simp [VolumeSurgeRule.evaluate, hcp, hz, hr, hab]
      exact ⟨not_lt.mp hr, not_lt.mp hab⟩
  · intro c p pp pv hc hcp hpp hpv
    subst hpp
    subst hpv
    simp only [VolumeSurgeRule.evaluate, hcp] at hc
    split_ifs at hc with hz hr hab hdir
    · have hx : (0 : ℚ) ≤ (market.volume_24h / pv - st.volume_surge_multiplier) / 2 + 1 / 2 := by
        rw [not_lt] at hr
        linarith
      obtain rfl := Option.some.inj hc
      rw [clamp01_of_nonneg _ hx]
      exact ⟨rfl, by simp [hdir], rfl⟩
    · have hx : (0 : ℚ) ≤ (market.volume_24h / pv - st.volume_surge_multiplier) / 2 + 1 / 2 := by
        rw [not_lt] at hr
        linarith
      obtain rfl := Option.some.inj hc
      rw [clamp01_of_nonneg _ hx]
      exact ⟨rfl, by simp [hdir], rfl⟩

/-- C5 witness: with a 5x volume ratio and price rising from 0.50 to 0.60
the rule fires BUY, with the confidence given by the amended formula
(here 1.0 > 0). -/
theorem C5_volume_surge_witness :
    (VolumeSurgeRule.evaluate {} (1 / 20) fivexMarket (some (1 / 2))
        (some 100)).map SignalCandidate.direction = some SignalDirection.BUY ∧
    (VolumeSurgeRule.evaluate {} (1 / 20) fivexMarket (some (1 / 2))
        (some 100)).map SignalCandidate.confidence =
      some (round2 (clamp01 ((fivexMarket.volume_24h / 100 -
        ({} : Settings).volume_surge_multiplier) / 2 + 1 / 2))) := by
  have hiff := (C5_volume_surge {} (1 / 20) fivexMarket (some (1 / 2)) (some 100)).1
  have hsome : (VolumeSurgeRule.evaluate {} (1 / 20) fivexMarket (some (1 / 2))
      (some 100)).isSome = true := by
    rw [hiff]
    refine ⟨3 / 5, 1 / 2, 100, rfl, rfl, rfl, by norm_num, ?_, ?_⟩
    · norm_num [fivexMarket]
    · norm_num [abs_of_nonneg]
  obtain ⟨c, hc⟩ := Option.isSome_iff_exists.mp hsome
  have hp := (C5_volume_surge {} (1 / 20) fivexMarket (some (1 / 2)) (some 100)).2
    c (3 / 5) (1 / 2) 100 hc rfl rfl rfl
  have hdir : c.direction = SignalDirection.BUY := hp.2.1.mpr (by norm_num)
  rw [hc]
  simp [hdir, hp.2.2]

/-- C6 counterexample: with zero 24h mentions, 6 mentions in the last
hour and sentiment 0.37, the rule fires (the source replaces the zero —
falsy — 24h count by an average of 1), although the claimed average
`mention_count_24h / 24 = 0` makes the claimed firing ratio fail the
multiplier test; moreover the produced confidence 0.54 is the rounded
value, not the claimed exact average 0.535. -/
theorem C6_counterexample :
    (SocialSpikeRule.evaluate {} (3 / 10) currentMarket
        (some { mention_count_1h := 6, mention_count_24h := 0 })
        (some { sentiment_score := 37 / 100 })).map SignalCandidate.confidence =
      some (27 / 50) ∧
    ((6 : ℚ) / ((0 : ℚ) / 24)) < ({} : Settings).social_spike_multiplier ∧
    (27 : ℚ) / 50 ≠
      (clamp01 ((6 / 1 - ({} : Settings).social_spike_multiplier) /
          ({} : Settings).social_spike_multiplier + 1 / 2) + 37 / 100) / 2 := by
  refine ⟨?_, by norm_num, ?_⟩
  · simp only [SocialSpikeRule.evaluate]
    norm_num [round2, roundHalfEven, min_def, max_def, round_eq, abs_of_nonneg]
  · norm_num [clamp01, min_def, max_def]

/-- Helper: the average hourly mention rate computed by `SocialSpikeRule`
is always positive (the zero-count fallback is 1). -/
theorem avg_hourly_rate_pos (mentions : SocialMention) :
    0 < avg_hourly_rate mentions := by
  unfold avg_hourly_rate
  split_ifs with h
  · have hpos : (0 : ℚ) < (mentions.mention_count_24h : ℚ) := by
      exact_mod_cast Nat.pos_of_ne_zero h
    positivity
  · norm_num

/-- Helper: on present mention and sentiment contexts, `SocialSpikeRule`
reduces to its threshold tests on `mention_hourly_ratio`. -/
theorem social_spike_eval (st : Settings) (thr : ℚ) (market : Market)
    (mentions : SocialMention) (sentiment : SocialSentiment) :
    SocialSpikeRule.evaluate st thr market (some mentions) (some sentiment) =
      if mention_hourly_ratio mentions < st.social_spike_multiplier then none
      else if |sentiment.sentiment_score| < thr then none
      else
        some { signal_type := SignalType.SOCIAL_SPIKE
               direction :=
                 if 0 < sentiment.sentiment_score then SignalDirection.BUY
                 else SignalDirection.SELL
               confidence := round2 ((min 1 ((mention_hourly_ratio mentions -
                   st.social_spike_multiplier) / st.social_spike_multiplier + 1 / 2) +
                 |sentiment.sentiment_score|) / 2)
               social_mention_count_24h := some mentions.mention_count_24h
               social_sentiment_score := some sentiment.sentiment_score } := by
  have hpos := avg_hourly_rate_pos mentions
  unfold avg_hourly_rate at hpos
  simp only [SocialSpikeRule.evaluate, mention_hourly_ratio, avg_hourly_rate,
    if_pos hpos]

/-- C6 (amended): `SocialSpikeRule.evaluate` computes the average hourly
mention rate as `mention_count_24h / 24` when the 24h count is non-zero
and as 1 when it is zero, and produces a candidate exactly when mention
and sentiment contexts are present, `mention_count_1h` divided by that
average is at least the multiplier, and `|sentiment| ≥
sentiment_threshold`; the direction follows the sentiment sign and the
confidence equals the average of
`clamp01((hourly_ratio - multiplier)/multiplier + 0.5)` and `|sentiment|`,
rounded to two decimal places (assuming the documented positive
multiplier). -/
theorem C6_social_spike (st : Settings) (thr : ℚ) (market : Market)
    (social_mentions : Option SocialMention)
    (social_sentiment : Option SocialSentiment)
    (hmult : 0 < st.social_spike_multiplier) :
    ((SocialSpikeRule.evaluate st thr market social_mentions
        social_sentiment).isSome = true ↔
      ∃ mentions sentiment, social_mentions = some mentions ∧
        social_sentiment = some sentiment ∧
        ¬ mention_hourly_ratio mentions < st.social_spike_multiplier ∧
        ¬ |sentiment.sentiment_score| < thr) ∧
    (∀ c mentions sentiment,
      SocialSpikeRule.evaluate st thr market social_mentions social_sentiment =
        some c →
      social_mentions = some mentions → social_sentiment = some sentiment →
      c.signal_type = SignalType.SOCIAL_SPIKE ∧
      (c.direction = SignalDirection.BUY ↔ 0 < sentiment.sentiment_score) ∧
      c.confidence = round2 ((clamp01 ((mention_hourly_ratio mentions -
          st.social_spike_multiplier) / st.social_spike_multiplier + 1 / 2) +
        |sentiment.sentiment_score|) / 2) ∧
      c.social_mention_count_24h = some mentions.mention_count_24h ∧
      c.social_sentiment_score = some sentiment.sentiment_score) := by
  constructor
  · rcases social_mentions with _ | mentions
    · simp [SocialSpikeRule.evaluate]
    rcases social_sentiment with _ | sentiment
    · simp [SocialSpikeRule.evaluate]
    rw [social_spike_eval]
    by_cases hr : mention_hourly_ratio mentions < st.social_spike_multiplier
    · simp [hr]
    by_cases hab : |sentiment.sentiment_score| < thr
    · simp [hr, hab]
    · simp [hr, hab]
      exact ⟨not_lt.mp hr, not_lt.mp hab⟩
  · intro c mentions sentiment hc hm hs
    subst hm
    subst hs
    rw [social_spike_eval] at hc
    have hx : (0 : ℚ) ≤ (mention_hourly_ratio mentions -
        st.social_spike_multiplier) / st.social_spike_multiplier + 1 / 2 := by
      by_cases hr : mention_hourly_ratio mentions < st.social_spike_multiplier
      · simp [hr] at hc
      · have h1 : (0 : ℚ) ≤ (mention_hourly_ratio mentions -
            st.social_spike_multiplier) / st.social_spike_multiplier :=
          div_nonneg (by linarith [not_lt.mp hr]) hmult.le
        linarith
    split_ifs at hc with hr hab hdir
    · obtain rfl := Option.some.inj hc
      rw [clamp01_of_nonneg _ hx]
      exact ⟨rfl, by simp [hdir], rfl, rfl, rfl⟩
    · obtain rfl := Option.some.inj hc
      rw [clamp01_of_nonneg _ hx]
      exact ⟨rfl, by simp [hdir], rfl, rfl, rfl⟩

/-- C6 witness: 30 mentions in the last hour against a 1/hr average
(24 in 24h) with sentiment +0.5 fires a BUY candidate. -/
theorem C6_social_spike_witness :
    (SocialSpikeRule.evaluate {} (3 / 10) currentMarket
        (some { mention_count_1h := 30, mention_count_24h := 24 })
        (some { sentiment_score := 1 / 2 })).map SignalCandidate.direction =
      some SignalDirection.BUY := by
  have h := C6_social_spike {} (3 / 10) currentMarket
    (some { mention_count_1h := 30, mention_count_24h := 24 })
    (some { sentiment_score := 1 / 2 }) (by norm_num)
  have hsome : (SocialSpikeRule.evaluate {} (3 / 10) currentMarket
      (some { mention_count_1h := 30, mention_count_24h := 24 })
      (some { sentiment_score := 1 / 2 })).isSome = true := by
    rw [h.1]
    refine ⟨_, _, rfl, rfl, ?_, ?_⟩
    · norm_num [mention_hourly_ratio, avg_hourly_rate]
    · norm_num [abs_of_nonneg]
  obtain ⟨c, hc⟩ := Option.isSome_iff_exists.mp hsome
  have hp := h.2 c _ _ hc rfl rfl
  rw [hc]
  simp [hp.2.1.mpr (by norm_num : (0 : ℚ) < 1 / 2)]

set_option maxHeartbeats 1000000 in
/-- C3 counterexample: at the boundary sentiment score +0.3 (with 5
articles and price 0.80) the rule returns a SELL candidate, although the
score is not bearish: the claim permits SELL only for
`score < -min_sentiment_strength`, yet `0.3 < -0.3` is false. The
boundary score falls into the source's `else` (bearish) branch because the
bullish test is the strict `sentiment > threshold`. -/
theorem C3_counterexample :
    ((SentimentDivergenceRule.evaluate {} boundaryMarket
        (some { sentiment_score := 3 / 10, article_count := 5 })).map
      SignalCandidate.direction = some SignalDirection.SELL) ∧
    ¬ ((3 : ℚ) / 10 < -(({} : Settings).min_sentiment_strength)) := by
  constructor
  · norm_num [SentimentDivergenceRule.evaluate, abs_of_nonneg, boundaryMarket]
  · norm_num

/-- C3 (amended): `SentimentDivergenceRule.evaluate` returns no candidate
when `|sentiment_score| < min_sentiment_strength`; whenever it returns a
candidate, the direction is BUY exactly when the score is strictly
bullish (`score > min_sentiment_strength`, with price ≤ 0.70 and
`expected_price - price ≥ divergence_threshold` where
`expected_price = 0.5 + score*0.3`), and the direction is SELL exactly
for the remaining strong scores — `|score| ≥ min_sentiment_strength` with
`score ≤ min_sentiment_strength`, which covers every `score <
-min_sentiment_strength` and also the boundary scores
`±min_sentiment_strength` — with price ≥ 0.30 and
`price - expected_price ≥ divergence_threshold`. -/
theorem C3_sentiment_divergence (st : Settings) (market : Market)
    (news : Option NewsSentiment) :
    (∀ n, news = some n → |n.sentiment_score| < st.min_sentiment_strength →
      SentimentDivergenceRule.evaluate st market news = none) ∧
    (∀ c, SentimentDivergenceRule.evaluate st market news = some c →
      ∃ n p, news = some n ∧ market.current_price = some p ∧
        ¬ |n.sentiment_score| < st.min_sentiment_strength ∧
        c.signal_type = SignalType.SENTIMENT_DIVERGENCE ∧
        (c.direction = SignalDirection.BUY ↔
          st.min_sentiment_strength < n.sentiment_score) ∧
        (c.direction = SignalDirection.BUY →
          ¬ p > 7 / 10 ∧
          ¬ 1 / 2 + n.sentiment_score * (3 / 10) - p <
            st.sentiment_divergence_threshold) ∧
        (c.direction = SignalDirection.SELL →
          ¬ st.min_sentiment_strength < n.sentiment_score ∧ ¬ p < 3 / 10 ∧
          ¬ p - (1 / 2 + n.sentiment_score * (3 / 10)) <
            st.sentiment_divergence_threshold)) := by
  constructor
  · intro n hn habs
    subst hn
    rcases hcp : market.current_price with _ | p
    · simp [SentimentDivergenceRule.evaluate, hcp]
    · simp [SentimentDivergenceRule.evaluate, hcp, habs]
  · intro c hc
    rcases news with _ | n
    · simp [SentimentDivergenceRule.evaluate] at hc
    rcases hcp : market.current_price with _ | p
    · simp [SentimentDivergenceRule.evaluate, hcp] at hc
    refine ⟨n, p, rfl, rfl, ?_⟩
    simp only [SentimentDivergenceRule.evaluate, hcp] at hc
    split_ifs at hc with h1 h2 h3 h4 h5 h6 h7 h8
    · obtain rfl := Option.some.inj hc
      refine ⟨h1, rfl, ?_, ?_, ?_⟩
      · simp [h4]
      · intro _
        exact ⟨h5, h6⟩
      · intro hsell
        exact absurd hsell (by simp)
    · obtain rfl := Option.some.inj hc
      refine ⟨h1, rfl, ?_, ?_, ?_⟩
      · simp [h4]
      · intro hbuy
        exact absurd hbuy (by simp)
      · intro _
        exact ⟨h4, h7, h8⟩

set_option maxHeartbeats 1000000 in
/-- C3 witness: the amended direction rule evaluated on a strongly
bearish input (score -0.5, 10 articles, price 0.80), which fires SELL. -/
theorem C3_sentiment_divergence_witness :
    ((SentimentDivergenceRule.evaluate {} boundaryMarket
        (some { sentiment_score := -1 / 2, article_count := 10 })).map
      SignalCandidate.direction = some SignalDirection.SELL) := by
  obtain ⟨c, hc⟩ : ∃ c, SentimentDivergenceRule.evaluate {} boundaryMarket
      (some { sentiment_score := -1 / 2, article_count := 10 }) = some c := by
    rw [← Option.isSome_iff_exists]
    norm_num [SentimentDivergenceRule.evaluate, abs_of_nonpos, boundaryMarket]
  obtain ⟨n, p, hn, hp, hstrong, htype, hdir, hbuy, hsell⟩ :=
    (C3_sentiment_divergence {} boundaryMarket
      (some { sentiment_score := -1 / 2, article_count := 10 })).2 c hc
  obtain rfl := Option.some.inj hn
  rw [hc]
  rcases hd : c.direction
  · exact absurd (hdir.mp hd) (by norm_num)
  · simp [hd]

/-- Helper: the tier multiplier is positive. -/
theorem tier_multiplier_pos (t : MarketTier) : 0 < tier_multiplier t := by
  cases t <;> norm_num [tier_multiplier]

/-- Helper: the tier multiplier never exceeds 1 (it never boosts). -/
theorem tier_multiplier_le_one (t : MarketTier) : tier_multiplier t ≤ 1 := by
  cases t <;> norm_num [tier_multiplier]

/-- Helper: the expiry-decay multiplier is positive (its floor is 1/2). -/
theorem time_decay_factor_pos (m : Market) (now : ℚ) :
    0 < time_decay_factor m now := by
  unfold time_decay_factor
  rcases hed : m.end_date with _ | e
  · norm_num
  · dsimp only
    split_ifs
    · have h := le_max_left (1 / 2 : ℚ) ((pyDays e now : ℚ) / 14)
      linarith
    · norm_num

/-- Helper: the expiry-decay multiplier never exceeds 1 (it never boosts). -/
theorem time_decay_factor_le_one (m : Market) (now : ℚ) :
    time_decay_factor m now ≤ 1 := by
  unfold time_decay_factor
  rcases hed : m.end_date with _ | e
  · norm_num
  · dsimp only
    split_ifs with h
    · apply max_le
      · norm_num
      · have h13 : (pyDays e now : ℚ) ≤ 13 := by
          have h13' : pyDays e now ≤ 13 := by omega
          exact_mod_cast h13'
        linarith
    · norm_num

/-- C8: `adjust_confidence_for_quality` never boosts: for any candidate
confidence in [0,1] the result is at most the original confidence and
stays in [0,1]; the result is the confidence multiplied by 0.85 for tier
LOW, 0.95 for MEDIUM, 1.0 for HIGH (1.0 for THIN as well), and by
`max(0.5, days_remaining/14)` when fewer than 14 whole days remain to
expiry, clamped into [0,1]. -/
theorem C8_quality_adjustment (candidate : SignalCandidate) (market : Market)
    (now : ℚ) (h0 : 0 ≤ candidate.confidence) (h1 : candidate.confidence ≤ 1) :
    adjust_confidence_for_quality candidate market now ≤ candidate.confidence ∧
    0 ≤ adjust_confidence_for_quality candidate market now ∧
    adjust_confidence_for_quality candidate market now ≤ 1 ∧
    adjust_confidence_for_quality candidate market now =
      clamp01 (candidate.confidence * tier_multiplier market.effective_tier *
        time_decay_factor market now) ∧
    tier_multiplier MarketTier.LOW = 17 / 20 ∧
    tier_multiplier MarketTier.MEDIUM = 19 / 20 ∧
    tier_multiplier MarketTier.HIGH = 1 := by
  have heq : adjust_confidence_for_quality candidate market now =
      clamp01 (candidate.confidence * tier_multiplier market.effective_tier *
        time_decay_factor market now) := by
    rcases htier : market.effective_tier <;>
      rcases hed : market.end_date with _ | e <;>
      simp only [adjust_confidence_for_quality, clamp01, time_decay_factor,
        tier_multiplier, htier, hed] <;>
      try split_ifs
    all_goals
      first
        | rfl
        | (refine congrArg (fun x => max 0 (min 1 x)) ?_; ring)
  have ha := tier_multiplier_pos market.effective_tier
  have hb := tier_multiplier_le_one market.effective_tier
  have htd0 := time_decay_factor_pos market now
  have htd1 := time_decay_factor_le_one market now
  have hx0 : 0 ≤ candidate.confidence * tier_multiplier market.effective_tier *
      time_decay_factor market now :=
    mul_nonneg (mul_nonneg h0 ha.le) htd0.le
  have hxle : candidate.confidence * tier_multiplier market.effective_tier *
      time_decay_factor market now ≤ candidate.confidence := by
    have hm1 : tier_multiplier market.effective_tier *
        time_decay_factor market now ≤ 1 := mul_le_one₀ hb htd0.le htd1
    calc candidate.confidence * tier_multiplier market.effective_tier *
          time_decay_factor market now
        = candidate.confidence * (tier_multiplier market.effective_tier *
          time_decay_factor market now) := by ring
      _ ≤ candidate.confidence * 1 := mul_le_mul_of_nonneg_left hm1 h0
      _ = candidate.confidence := mul_one _
  have hclamp : clamp01 (candidate.confidence *
      tier_multiplier market.effective_tier * time_decay_factor market now) =
      candidate.confidence * tier_multiplier market.effective_tier *
        time_decay_factor market now := by
    unfold clamp01
    rw [min_eq_right (hxle.trans h1), max_eq_right hx0]
  refine ⟨?_, ?_, ?_, heq, rfl, rfl, rfl⟩
  · rw [heq, hclamp]
    exact hxle
  · rw [heq, hclamp]
    exact hx0
  · rw [heq, hclamp]
    exact hxle.trans h1

/-- C8 witness: the adjustment evaluated on a concrete 0.5-confidence
candidate and a concrete open market. -/
theorem C8_quality_adjustment_witness :
    adjust_confidence_for_quality sampleCandidate currentMarket 0 ≤
      sampleCandidate.confidence ∧
    adjust_confidence_for_quality sampleCandidate currentMarket 0 =
      clamp01 (sampleCandidate.confidence *
        tier_multiplier currentMarket.effective_tier *
        time_decay_factor currentMarket 0) := by
  have h := C8_quality_adjustment sampleCandidate currentMarket 0
    (by norm_num [sampleCandidate]) (by norm_num [sampleCandidate])
  exact ⟨h.1, h.2.2.2.1⟩

/-- Helper: `filterMap` keeps one element exactly for each input on which
the function is defined. -/
theorem length_filterMap_eq_length_filter {α β : Type} (f : α → Option β)
    (l : List α) :
    (l.filterMap f).length = (l.filter fun a => (f a).isSome).length := by
  induction l with
  | nil => rfl
  | cons a t ih =>
    cases hfa : f a <;>
      simp [List.filterMap_cons, hfa, List.filter_cons, ih]

/-- Helper: closed form of the scanning loop of `run_scan`: the fold
appends the signals of the successfully evaluated markets, counts exactly
those markets, and appends one error string per failing market. -/
theorem scan_foldl_spec (evaluate : Market → Except String (List Signal))
    (markets : List Market) (init : ScanResult) :
    markets.foldl (scan_step evaluate) init =
      { signals_generated := init.signals_generated
        markets_scanned := init.markets_scanned +
          (markets.filter fun m => (evaluate m).toOption.isSome).length
        signals := init.signals ++
          (markets.filterMap fun m => (evaluate m).toOption).flatten
        errors := init.errors ++ markets.filterMap fun m =>
          match evaluate m with
          | Except.ok _ => none
          | Except.error e => some e } := by
  induction markets generalizing init with
  | nil => simp
  | cons m t ih =>
    rcases he : evaluate m with err | sigs
    · rw [List.foldl_cons]
      have hstep : scan_step evaluate init m =
          { init with errors := init.errors ++ [err] } := by
        simp [scan_step, he]
      rw [hstep, ih]
      simp [List.filter_cons, List.filterMap_cons, he, Except.toOption]
    · rw [List.foldl_cons]
      have hstep : scan_step evaluate init m =
          { init with signals := init.signals ++ sigs,
                      markets_scanned := init.markets_scanned + 1 } := by
        simp [scan_step, he]
      rw [hstep, ih]
      simp [List.filter_cons, List.filterMap_cons, he, Except.toOption]
      omega

/-- C9: in the scanning loop of `run_scan`, a market whose evaluation
raises contributes exactly one error string, every other market is still
scanned and its signals are included in order, and `markets_scanned`
counts exactly the markets whose evaluation succeeded. -/
theorem C9_scan_isolation (evaluate : Market → Except String (List Signal))
    (markets : List Market) (hne : markets ≠ []) :
    (run_scan evaluate markets).markets_scanned =
      (markets.filter fun m => (evaluate m).toOption.isSome).length ∧
    (run_scan evaluate markets).errors = (markets.filterMap fun m =>
      match evaluate m with
      | Except.ok _ => none
      | Except.error e => some e) ∧
    (run_scan evaluate markets).errors.length =
      (markets.filter fun m => (evaluate m).toOption.isNone).length ∧
    (run_scan evaluate markets).signals =
      (markets.filterMap fun m => (evaluate m).toOption).flatten ∧
    (run_scan evaluate markets).signals_generated =
      (run_scan evaluate markets).signals.length := by
  unfold run_scan
  rw [if_neg hne, scan_foldl_spec]
  refine ⟨by simp, by simp, ?_, by simp, by simp⟩
  simp only [List.nil_append]
  rw [length_filterMap_eq_length_filter]
  congr 1
  have hfun : (fun a => (match evaluate a with
      | Except.ok _ => none
      | Except.error e => some e).isSome) =
      (fun m => (evaluate m).toOption.isNone) := by
    funext m
    rcases he : evaluate m with err | sigs <;> simp [he, Except.toOption]
  rw [hfun]

/-- C9 witness: three markets where the second raises — the scan records
the signals of markets 1 and 3, exactly one error entry, and counts two
markets as scanned. -/
theorem C9_scan_isolation_witness :
    (run_scan scanEval scanMarkets).markets_scanned = 2 ∧
    (run_scan scanEval scanMarkets).errors = ["Error scanning market m2: boom"] ∧
    (run_scan scanEval scanMarkets).signals =
      [sampleSignal SignalDirection.BUY, sampleSignal SignalDirection.BUY] := by
  obtain ⟨h1, h2, h3, h4, h5⟩ :=
    C9_scan_isolation scanEval scanMarkets (by simp [scanMarkets])
  refine ⟨?_, ?_, ?_⟩
  · rw [h1]
    simp [scanMarkets, scanEval, Except.toOption]
  · rw [h2]
    simp [scanMarkets, scanEval]
  · rw [h4]
    simp [scanMarkets, scanEval, Except.toOption]

/-- Helper: field-by-field behaviour of the tracker's horizon-filling
step: each horizon is set exactly when its time has been reached and the
field is still unset, and the step never touches `created_at` or
`status`. -/
theorem tracker_fill_horizons_spec (s : Signal) (p h : ℚ) :
    (tracker_fill_horizons s p h).price_1h =
      (if 1 ≤ h ∧ s.price_1h = none then some p else s.price_1h) ∧
    (tracker_fill_horizons s p h).price_24h =
      (if 24 ≤ h ∧ s.price_24h = none then some p else s.price_24h) ∧
    (tracker_fill_horizons s p h).price_7d =
      (if 168 ≤ h ∧ s.price_7d = none then some p else s.price_7d) ∧
    (tracker_fill_horizons s p h).created_at = s.created_at ∧
    (tracker_fill_horizons s p h).status = s.status := by
  unfold tracker_fill_horizons
  by_cases h1 : 1 ≤ h ∧ s.price_1h = none <;>
    by_cases h2 : 24 ≤ h ∧ s.price_24h = none <;>
    by_cases h3 : 168 ≤ h ∧ s.price_7d = none <;>
    simp [h1, h2, h3]

/-- Helper: a current market is in particular not closed. -/
theorem is_market_current_closed_false (m : Market) (now : ℚ)
    (h : is_market_current m now = true) : m.closed = false := by
  cases hcl : m.closed
  · rfl
  · simp [is_market_current, hcl] at h

/-- Helper: `_resolve_signal` touches only the resolution fields, never
the horizon prices or `created_at`. -/
theorem resolve_signal_fields (s : Signal) (m : Market) (now : ℚ) :
    (resolve_signal s m now).price_1h = s.price_1h ∧
    (resolve_signal s m now).price_24h = s.price_24h ∧
    (resolve_signal s m now).price_7d = s.price_7d ∧
    (resolve_signal s m now).created_at = s.created_at := by
  unfold resolve_signal
  rcases m.current_price with _ | fp <;> simp

/-- Helper: on a current market with a price, a tracking tick is exactly
the horizon-filling step. -/
theorem update_signal_tracking_current (s : Signal) (m : Market) (now p : ℚ)
    (hcur : is_market_current m now = true) (hp : m.current_price = some p) :
    update_signal_tracking s (some m) now =
      tracker_fill_horizons s p ((now - s.created_at) / 3600) := by
  have hcl := is_market_current_closed_false m now hcur
  simp [update_signal_tracking, hp, hcur, hcl]

/-- Helper: on a non-current market, a tracking tick either resolves the
signal or leaves it untouched. -/
theorem update_signal_tracking_not_current (s : Signal) (m : Market) (now p : ℚ)
    (hp : m.current_price = some p) (hcur : is_market_current m now = false) :
    update_signal_tracking s (some m) now =
      if m.closed ∧ s.status = SignalStatus.ACTIVE then resolve_signal s m now
      else s := by
  simp [update_signal_tracking, hp, hcur]

/-- Helper: one tracking tick, through any of its branches, preserves
`created_at`, never overwrites an already-set horizon price, and never
sets `price_24h` before 24 elapsed hours. -/
theorem update_signal_tracking_fields (s : Signal) (mo : Option Market) (now : ℚ) :
    (update_signal_tracking s mo now).created_at = s.created_at ∧
    (∀ v, s.price_1h = some v → (update_signal_tracking s mo now).price_1h = some v) ∧
    (∀ v, s.price_24h = some v →
      (update_signal_tracking s mo now).price_24h = some v) ∧
    (∀ v, s.price_7d = some v → (update_signal_tracking s mo now).price_7d = some v) ∧
    (s.price_24h = none → (now - s.created_at) / 3600 < 24 →
      (update_signal_tracking s mo now).price_24h = none) := by
  rcases mo with _ | m
  · simp only [update_signal_tracking]
    exact ⟨trivial, fun v hv => hv, fun v hv => hv, fun v hv => hv, fun h _ => h⟩
  rcases hp : m.current_price with _ | p
  · simp only [update_signal_tracking, hp]
    exact ⟨trivial, fun v hv => hv, fun v hv => hv, fun v hv => hv, fun h _ => h⟩
  by_cases hcur : is_market_current m now = false
  · rw [update_signal_tracking_not_current s m now p hp hcur]
    by_cases hcl : m.closed ∧ s.status = SignalStatus.ACTIVE
    · rw [if_pos hcl]
      have hr := resolve_signal_fields s m now
      refine ⟨hr.2.2.2, fun v hv => ?_, fun v hv => ?_, fun v hv => ?_,
        fun h24 _ => ?_⟩
      · rw [hr.1]
        exact hv
      · rw [hr.2.1]
        exact hv
      · rw [hr.2.2.1]
        exact hv
      · rw [hr.2.1]
        exact h24
    · rw [if_neg hcl]
      exact ⟨rfl, fun v hv => hv, fun v hv => hv, fun v hv => hv, fun h24 _ => h24⟩
  · have hcur' : is_market_current m now = true := by
      cases hvv : is_market_current m now
      · exact absurd hvv hcur
      · rfl
    rw [update_signal_tracking_current s m now p hcur' hp]
    have hs := tracker_fill_horizons_spec s p ((now - s.created_at) / 3600)
    refine ⟨hs.2.2.2.1, fun v hv => ?_, fun v hv => ?_, fun v hv => ?_,
      fun h24 hh => ?_⟩
    · rw [hs.1]
      simp [hv]
    · rw [hs.2.1]
      simp [hv]
    · rw [hs.2.2.1]
      simp [hv]
    · rw [hs.2.1, if_neg]
      · exact h24
      · rintro ⟨hge, -⟩
        exact absurd hge (not_le.mpr hh)

/-- C2: on a current market with a price, a tracker tick fills each
horizon price field exactly when the elapsed hours since creation have
reached that horizon (1, 24, 168) and the field is still unset; over any
sequence of ticks an already-set horizon field is never overwritten; and
`price_24h` is never populated while every tick's elapsed hours are below
24. -/
theorem C2_tracker_write_once :
    (∀ (s : Signal) (m : Market) (now p : ℚ),
      is_market_current m now = true → m.current_price = some p →
      ((update_signal_tracking s (some m) now).price_1h =
        if 1 ≤ (now - s.created_at) / 3600 ∧ s.price_1h = none then some p
        else s.price_1h) ∧
      ((update_signal_tracking s (some m) now).price_24h =
        if 24 ≤ (now - s.created_at) / 3600 ∧ s.price_24h = none then some p
        else s.price_24h) ∧
      ((update_signal_tracking s (some m) now).price_7d =
        if 168 ≤ (now - s.created_at) / 3600 ∧ s.price_7d = none then some p
        else s.price_7d)) ∧
    (∀ (ticks : List (Market × ℚ)) (s : Signal) (v : ℚ),
      (s.price_1h = some v → (run_ticks ticks s).price_1h = some v) ∧
      (s.price_24h = some v → (run_ticks ticks s).price_24h = some v) ∧
      (s.price_7d = some v → (run_ticks ticks s).price_7d = some v)) ∧
    (∀ (ticks : List (Market × ℚ)) (s : Signal),
      s.price_24h = none →
      (∀ t ∈ ticks, (t.2 - s.created_at) / 3600 < 24) →
      (run_ticks ticks s).price_24h = none) := by
  refine ⟨?_, ?_, ?_⟩
  · intro s m now p hcur hp
    rw [update_signal_tracking_current s m now p hcur hp]
    have hs := tracker_fill_horizons_spec s p ((now - s.created_at) / 3600)
    exact ⟨hs.1, hs.2.1, hs.2.2.1⟩
  · intro ticks
    induction ticks with
    | nil => exact fun s v => ⟨id, id, id⟩
    | cons t ts ih =>
      intro s v
      have hf := update_signal_tracking_fields s (some t.1) t.2
      refine ⟨fun hv => ?_, fun hv => ?_, fun hv => ?_⟩
      · exact (ih _ v).1 (hf.2.1 v hv)
      · exact (ih _ v).2.1 (hf.2.2.1 v hv)
      · exact (ih _ v).2.2 (hf.2.2.2.1 v hv)
  · intro ticks
    induction ticks with
    | nil => exact fun s h24 _ => h24
    | cons t ts ih =>
      intro s h24 hlt
      have hf := update_signal_tracking_fields s (some t.1) t.2
      have h24' : (update_signal_tracking s (some t.1) t.2).price_24h = none :=
        hf.2.2.2.2 h24 (hlt t (by simp))
      refine ih _ h24' ?_
      intro u hu
      rw [hf.1]
      exact hlt u (List.mem_cons_of_mem _ hu)

/-- C2 witness: a tick at 2 elapsed hours on a current market fills
`price_1h` and leaves `price_24h` unset. -/
theorem C2_tracker_write_once_witness :
    (update_signal_tracking (sampleSignal SignalDirection.BUY) (some currentMarket)
      7200).price_1h = some (3 / 5) ∧
    (update_signal_tracking (sampleSignal SignalDirection.BUY) (some currentMarket)
      7200).price_24h = none := by
  have h := C2_tracker_write_once.1 (sampleSignal SignalDirection.BUY) currentMarket
    7200 (3 / 5) rfl rfl
  constructor
  · rw [h.1]
    norm_num [sampleSignal]
  · rw [h.2.1]
    norm_num [sampleSignal]

/-- C10 counterexample: on a fresh signal at 25 elapsed hours, the model
helper `Signal.update_tracking` (an `if`/`elif` chain) fills only
`price_1h` and leaves `price_24h` unset, while the tracker's per-tick
step fills both — the two do not produce the same fields, and the helper
does not fill every due horizon in one call. -/
theorem C10_counterexample :
    ((sampleSignal SignalDirection.BUY).update_tracking (3 / 5) 25).price_24h =
      none ∧
    (update_signal_tracking (sampleSignal SignalDirection.BUY) (some currentMarket)
      90000).price_24h = some (3 / 5) := by
  constructor
  · simp only [Signal.update_tracking, sampleSignal, Signal.calculate_gain]
    norm_num
  · rw [update_signal_tracking_current (sampleSignal SignalDirection.BUY)
      currentMarket 90000 (3 / 5) rfl rfl]
    have hs := tracker_fill_horizons_spec (sampleSignal SignalDirection.BUY) (3 / 5)
      ((90000 - (sampleSignal SignalDirection.BUY).created_at) / 3600)
    rw [hs.2.1]
    norm_num [sampleSignal]

/-- C10 (amended): `Signal.update_tracking` fills exactly the first
horizon (in the order 1h, 24h, 7d) whose time has been reached and whose
price field is still unset, while the tracker's per-tick step fills every
such horizon; the two produce the same signal whenever at most one
horizon is due-and-unset (in particular on any call with elapsed hours
below 24, or when the earlier horizons are already filled). -/
theorem C10_update_refinement (s : Signal) (p h : ℚ) :
    ((s.update_tracking p h).price_1h =
      if 1 ≤ h ∧ s.price_1h = none then some p else s.price_1h) ∧
    ((s.update_tracking p h).price_24h =
      if ¬ (1 ≤ h ∧ s.price_1h = none) ∧ (24 ≤ h ∧ s.price_24h = none) then some p
      else s.price_24h) ∧
    ((s.update_tracking p h).price_7d =
      if ¬ (1 ≤ h ∧ s.price_1h = none) ∧ ¬ (24 ≤ h ∧ s.price_24h = none) ∧
          (168 ≤ h ∧ s.price_7d = none) then some p
      else s.price_7d) ∧
    ((¬ ((1 ≤ h ∧ s.price_1h = none) ∧ (24 ≤ h ∧ s.price_24h = none)) ∧
      ¬ ((1 ≤ h ∧ s.price_1h = none) ∧ (168 ≤ h ∧ s.price_7d = none)) ∧
      ¬ ((24 ≤ h ∧ s.price_24h = none) ∧ (168 ≤ h ∧ s.price_7d = none))) →
      s.update_tracking p h = tracker_fill_horizons s p h) := by
  by_cases h1 : 1 ≤ h ∧ s.price_1h = none <;>
    by_cases h2 : 24 ≤ h ∧ s.price_24h = none <;>
    by_cases h3 : 168 ≤ h ∧ s.price_7d = none <;>
    simp [Signal.update_tracking, tracker_fill_horizons, h1, h2, h3]

/-- C10 witness: at 2 elapsed hours on a fresh signal only the 1h horizon
is due, and the model helper and the tracker step agree. -/
theorem C10_update_refinement_witness :
    (sampleSignal SignalDirection.BUY).update_tracking (3 / 5) 2 =
      tracker_fill_horizons (sampleSignal SignalDirection.BUY) (3 / 5) 2 := by
  apply (C10_update_refinement (sampleSignal SignalDirection.BUY) (3 / 5) 2).2.2.2
  norm_num [sampleSignal]

end PolyEdge
